import Mathlib

/-!
Formal model of the qudi-coldatoms-imaging repository's two non-trivial
subsystems: remote module sharing (`core/remote.py`) and the interruptable
task engine (`logic/generic_logic.py`).  Python objects are embedded as Lean
structures, Python exceptions as an explicit `PyExc` type, and logging as a
list of `LogEntry` values.  Attributes that the source never assigns are
`Option` fields holding `none`, so that attribute access can be modelled
faithfully (Python raises `AttributeError` on a missing attribute).
-/

set_option autoImplicit false

namespace Qudi

/-- Severity levels accepted by the application logger's `msgType` argument. -/
inductive MsgType where
  | status
  | warning
  | error
deriving DecidableEq

/-- One call to `logMsg`: the formatted message together with its severity. -/
structure LogEntry where
  msg : String
  msgType : MsgType
deriving DecidableEq

/-- Python exceptions that the embedded code can raise. -/
inductive PyExc where
  | attributeError (attr : String)
  | keyError (key : String)
  | fysomError (event : String)
  | raised (msg : String)
deriving DecidableEq

instance exceptDecEq {ε α : Type} [DecidableEq ε] [DecidableEq α] :
    DecidableEq (Except ε α) := fun a b =>
  match a, b with
  | .ok x, .ok y =>
    if h : x = y then .isTrue (by rw [h])
    else .isFalse (fun hc => h (Except.ok.inj hc))
  | .error x, .error y =>
    if h : x = y then .isTrue (by rw [h])
    else .isFalse (fun hc => h (Except.error.inj hc))
  | .ok _, .error _ => .isFalse (fun hc => Except.noConfusion hc)
  | .error _, .ok _ => .isFalse (fun hc => Except.noConfusion hc)

/-- A Python value as far as the task engine inspects one: either a callable
(which, when called, returns normally or raises) or a non-callable object. -/
inductive PyCallable where
  | ok
  | raises (msg : String)
deriving DecidableEq

inductive PyValue where
  | callable (c : PyCallable)
  | notCallable
deriving DecidableEq

/-- Python's `callable(v)` test. -/
def pyCallable : PyValue → Bool
  | .callable _ => true
  | .notCallable => false

/-- Ordered key/value pairs backing a `DictTableModel`'s `storage` dict. -/
def lookupKey {α : Type} : List (String × α) → String → Option α
  | [], _ => none
  | (k, v) :: rest, n => if k = n then some v else lookupKey rest n

/-- Modelled from the spec: `core.util.models.DictTableModel` lives in
`core/util/models.py`, which is not among the sources; only its callers are.
It is a name-to-object mapping with a `storage` dict. -/
structure DictTableModel (α : Type) where
  storage : List (String × α)
deriving DecidableEq

/-- Dictionary lookup on the model's `storage`. -/
def DictTableModel.lookup {α : Type} (m : DictTableModel α) (n : String) : Option α :=
  lookupKey m.storage n

/-- Python's `name in self.storage` membership test. -/
def DictTableModel.contains {α : Type} (m : DictTableModel α) (n : String) : Bool :=
  (m.lookup n).isSome

/-- Modelled from the spec: `DictTableModel.add` is in the missing
`core/util/models.py`.  The spec's TaskRegistry contract pins its behaviour:
a duplicate key is rejected without overwriting and signalled by a `None`
return (`GenericLogic.registerTask` in the sources distinguishes the
duplicate case by testing `add(...) == None`), while a fresh key is inserted
and a non-`None` indicator (the key) is returned.  Note this contradicts the
spec's separate statement that re-sharing overwrites; the return-value
contract that the source code observably depends on is used here. -/
def DictTableModel.add {α : Type} (m : DictTableModel α) (k : String) (v : α) :
    DictTableModel α × Option String :=
  if m.contains k then (m, none)
  else ({ storage := m.storage ++ [(k, v)] }, some k)

/-- Modelled from the spec: `DictTableModel.pop` is in the missing
`core/util/models.py`.  The spec's unshare contract says removal of an absent
key "does not raise" and leaves the registry unchanged, so `pop` removes the
entry for the key when present and is a no-op otherwise. -/
def DictTableModel.pop {α : Type} (m : DictTableModel α) (k : String) : DictTableModel α :=
  { storage := m.storage.filter (fun p => decide (p.1 ≠ k)) }

/-- Log entry emitted by `RemoteModuleService.exposed_getModule` when a client
requests a name absent from the shared module list (remote.py line 77). -/
def notSharedError : LogEntry :=
  ⟨"Client requested a module that is not shared.", .error⟩

/-- `RemoteModuleService.exposed_getModule` (remote.py lines 67-78): tests
`name in self.modules.storage`; on success returns `self.modules.storage[name]`
(dict indexing, which would raise `KeyError` only on an absent key), otherwise
logs an error and returns `None`.  The first component is the value delivered
to the rpyc layer, or the exception the handler raised; the second is what the
handler logged. -/
def RemoteModuleService.exposed_getModule {α : Type} (modules : DictTableModel α)
    (name : String) : Except PyExc (Option α) × List LogEntry :=
  if modules.contains name then
    match modules.lookup name with
    | some v => (.ok (some v), [])
    | none => (.error (.keyError name), [])
  else
    (.ok none, [notSharedError])

/-- Client-side record of a remote module (`RemoteModule`, remote.py lines
170-176): keeps the requested name and the proxy returned by the server
(`None` when the server did not share the name). -/
structure RemoteModuleRec (α : Type) where
  name : String
  module : Option α
deriving DecidableEq

/-- `RemoteModule.__init__` (remote.py lines 173-176): connects to the given
host and port and calls `connection.root.getModule(name)`.  The rpyc transport
is modelled as a direct call into the reached server's dispatch path
(`exposed_getModule` over the server's shared module registry); a `None`
result crosses the wire as `None`, and an exception raised by the handler
would re-raise on the client. -/
def RemoteModule.init {α : Type} (server : DictTableModel α) (name : String) :
    Except PyExc (RemoteModuleRec α) :=
  match RemoteModuleService.exposed_getModule server name with
  | (.ok m, _) => .ok { name := name, module := m }
  | (.error e, _) => .error e

/-- `RemoteObjectManager` state (remote.py lines 30-45): the shared module
registry, the client-side list of obtained remote modules, and the log. -/
structure RemoteObjectManager (α : Type) where
  sharedModules : DictTableModel α
  remoteModules : List (RemoteModuleRec α)
  log : List LogEntry
deriving DecidableEq

/-- `RemoteObjectManager.shareModule` (remote.py lines 107-116): warns when the
name is already present, then calls `self.sharedModules.add(name, obj)`
(ignoring its return value) and logs a status message. -/
def RemoteObjectManager.shareModule {α : Type} (mgr : RemoteObjectManager α)
    (name : String) (obj : α) : RemoteObjectManager α :=
  let warnLog : List LogEntry :=
    if mgr.sharedModules.contains name then
      [⟨"Module " ++ name ++ " already shared.", .warning⟩]
    else []
  let added := mgr.sharedModules.add name obj
  { mgr with
    sharedModules := added.1
    log := mgr.log ++ warnLog ++ [⟨"Shared module " ++ name ++ ".", .status⟩] }

/-- `RemoteObjectManager.unshareModule` (remote.py lines 118-125): the guard is
`if name in self.sharedModules.storage`, so the error-level "was not shared"
diagnostic is emitted exactly when the name IS present; afterwards
`self.sharedModules.pop(name)` runs unconditionally. -/
def RemoteObjectManager.unshareModule {α : Type} (mgr : RemoteObjectManager α)
    (name : String) : RemoteObjectManager α :=
  let errLog : List LogEntry :=
    if mgr.sharedModules.contains name then
      [⟨"Module " ++ name ++ " was not shared.", .error⟩]
    else []
  { mgr with
    sharedModules := mgr.sharedModules.pop name
    log := mgr.log ++ errLog }

/-- `RemoteObjectManager.getRemoteModule` (remote.py lines 138-149): builds a
`RemoteModule` against the reachable server, appends it to the observable
`remoteModules` listing and returns `module.module` (the proxy). -/
def RemoteObjectManager.getRemoteModule {α : Type} (mgr : RemoteObjectManager α)
    (server : DictTableModel α) (_host : String) (_port : Option Nat)
    (name : String) : Except PyExc (Option α × RemoteObjectManager α) :=
  match RemoteModule.init server name with
  | .ok rm => .ok (rm.module, { mgr with remoteModules := mgr.remoteModules ++ [rm] })
  | .error e => .error e

/-- Fields of the result of `urllib.parse.urlparse` that remote.py reads. -/
structure ParsedUrl where
  hostname : String
  port : Option Nat
  path : String
deriving DecidableEq

/-- Splits a character list at the first occurrence of `sep`. -/
def listSplitFirst (sep : Char) : List Char → Option (List Char × List Char)
  | [] => none
  | c :: cs =>
    if c = sep then some ([], cs)
    else
      match listSplitFirst sep cs with
      | none => none
      | some (a, b) => some (c :: a, b)

/-- Splits a character list at the last occurrence of `sep`. -/
def listSplitLast (sep : Char) (l : List Char) : Option (List Char × List Char) :=
  match listSplitFirst sep l.reverse with
  | none => none
  | some (a, b) => some (b.reverse, a.reverse)

/-- Characters allowed in a URL scheme after the first letter. -/
def isSchemeChar (c : Char) : Bool :=
  c.isAlphanum || c = '+' || c = '-' || c = '.'

/-- Interprets a digit string as a port number; `none` unless non-empty and
all digits. -/
def digitsToNat (l : List Char) : Option Nat :=
  if !l.isEmpty && l.all Char.isDigit then
    some (l.foldl (fun n c => 10 * n + (c.toNat - 48)) 0)
  else none

/-- Embeds `urllib.parse.urlparse` restricted to the fields remote.py reads
(`hostname`, `port`, `path`) and to absolute URLs of the shape
`scheme://host:port/path` without userinfo, query or fragment: the scheme is
split off at the first `:`, the netloc runs up to the next `/`, `hostname` is
the lowercased netloc up to the port separator, and `path` is the rest. -/
def pyUrlparse (url : String) : ParsedUrl :=
  match listSplitFirst ':' url.toList with
  | some (scheme, rest) =>
    if (scheme.headD ' ').isAlpha && scheme.all isSchemeChar
        && rest.take 2 = ['/', '/'] then
      let rest₂ := rest.drop 2
      let netloc := rest₂.takeWhile (fun c => decide (c ≠ '/'))
      let path := rest₂.dropWhile (fun c => decide (c ≠ '/'))
      let hostPort : List Char × Option Nat :=
        match listSplitLast ':' netloc with
        | some (h, p) =>
          match digitsToNat p with
          | some n => (h, some n)
          | none => (netloc, none)
        | none => (netloc, none)
      { hostname := String.mk (hostPort.1.map Char.toLower)
        port := hostPort.2
        path := String.mk path }
    else
      { hostname := "", port := none, path := url }
  | none => { hostname := "", port := none, path := url }

/-- Embeds `parsed.path.replace('/', '')` (remote.py line 135): removes every
slash from the path, not only the leading one. -/
def pyReplaceSlash (s : String) : String :=
  String.mk (s.toList.filter (fun c => decide (c ≠ '/')))

/-- The name mapping stated by the spec's addressing rule: the URL's path
component with its leading slash stripped.  Stated from the spec's words for
comparison with `pyReplaceSlash`. -/
def specLeadingSlashStripped (s : String) : String :=
  match s.toList with
  | '/' :: rest => String.mk rest
  | l => String.mk l

/-- The (host, port, name) triple that `RemoteObjectManager.getRemoteModuleUrl`
(remote.py lines 127-136) computes from a URL before delegating:
`parsed.hostname`, `parsed.port` and `parsed.path.replace('/', '')`. -/
def urlTriple (url : String) : String × Option Nat × String :=
  let parsed := pyUrlparse url
  (parsed.hostname, parsed.port, pyReplaceSlash parsed.path)

/-- `RemoteObjectManager.getRemoteModuleUrl` (remote.py lines 127-136):
parses the URL and delegates to `getRemoteModule` with the triple above. -/
def RemoteObjectManager.getRemoteModuleUrl {α : Type} (mgr : RemoteObjectManager α)
    (server : DictTableModel α) (url : String) :
    Except PyExc (Option α × RemoteObjectManager α) :=
  let t := urlTriple url
  mgr.getRemoteModule server t.1 t.2.1 t.2.2

/-- One entry of a Fysom `events` table: `{'name': .., 'src': .., 'dst': ..}`. -/
structure FysomEvent where
  name : String
  src : String
  dst : String
deriving DecidableEq

/-- A Fysom configuration dictionary: optional initial state and event table. -/
structure FysomCfg where
  initial : Option String
  events : List FysomEvent
deriving DecidableEq

/-- The default configuration used by `Fysom.__init__` when no `cfg` argument
is passed: no initial state, no events. -/
def FysomCfg.empty : FysomCfg := { initial := none, events := [] }

/-- A constructed Fysom machine: its event table and its current state. -/
structure FysomMachine where
  cfg : FysomCfg
  current : String
deriving DecidableEq

/-- `Fysom.__init__(cfg)`: builds the event map from `cfg`; `current` starts
as `"none"` and, when an initial state is configured, the startup event
immediately moves the machine there. -/
def fysomInit (cfg : FysomCfg) : FysomMachine :=
  { cfg := cfg
    current :=
      match cfg.initial with
      | some s => s
      | none => "none" }

/-- Whether an event of this name was configured at all: firing an event that
was never configured is an `AttributeError` (no such method was created). -/
def FysomMachine.hasEvent (m : FysomMachine) (ev : String) : Bool :=
  m.cfg.events.any (fun e => e.name == ev)

/-- Fysom's `can(event)`: the event is configured with the current state as a
source. -/
def FysomMachine.can (m : FysomMachine) (ev : String) : Bool :=
  m.cfg.events.any (fun e => e.name == ev && e.src == m.current)

/-- Firing an event on a Fysom machine.  An unconfigured event name raises
`AttributeError`; a configured event fired from a state the table forbids
raises `FysomError` and leaves the state unchanged; otherwise the state moves
to the transition's destination (and the event's callbacks run).  Returns the
post-state and the escaped exception, if any. -/
def FysomMachine.fire (m : FysomMachine) (ev : String) : FysomMachine × Option PyExc :=
  if m.hasEvent ev then
    match m.cfg.events.find? (fun e => e.name == ev && e.src == m.current) with
    | some e => ({ m with current := e.dst }, none)
    | none => (m, some (.fysomError ev))
  else
    (m, some (.attributeError ev))

/-- `TaskResult` (generic_logic.py lines 60-68): `__init__` sets `data` and
`success` to `None`; the only defined mutator is spelled `updata`. -/
structure TaskResult where
  data : Option Unit
  success : Option Bool
deriving DecidableEq

/-- `TaskResult.__init__` (lines 61-64). -/
def TaskResult.init : TaskResult := { data := none, success := none }

/-- `TaskResult.updata` (lines 66-68) — the source defines `updata`, not
`update`. -/
def TaskResult.updata (_r : TaskResult) (d : Option Unit) (s : Option Bool) : TaskResult :=
  { data := d, success := s }

/-- An `InterruptableTask` instance.  `Option` fields model the instance
attribute dictionary: `none` means the attribute was never assigned, so that
reading it raises `AttributeError`.  `function`, `kwargs`, `pausefunction` and
`resumefuncion` (the source's own spelling) are exactly the names the methods
read or write but `__init__` never sets. -/
structure InterruptableTask where
  machine : FysomMachine
  name : Option String
  func : Option PyValue
  args : Option Unit
  kwargs : Option Unit
  interruptable : Option Bool
  success : Option Bool
  result : Option TaskResult
  function : Option PyValue
  pausefunction : Option PyValue
  resumefuncion : Option PyValue
deriving DecidableEq

/-- The `_stateList` dictionary built in `InterruptableTask.__init__`
(generic_logic.py lines 82-91): initial state `stopped` and the four
transitions run/pause/finish/resume. -/
def interruptableStateList : FysomCfg :=
  { initial := some "stopped"
    events :=
      [ ⟨"run", "stopped", "running"⟩
      , ⟨"pause", "running", "paused"⟩
      , ⟨"finish", "running", "stopped"⟩
      , ⟨"resume", "paused", "running"⟩ ] }

/-- `InterruptableTask.__init__` (lines 79-98): builds `_default_callbacks`
and `_stateList` as local variables but then calls `Fysom.__init__(self)`
WITHOUT passing them, so the machine is configured from `FysomCfg.empty`;
assigns `name`, `func` (not `function`), `args`, `interruptable = False` and
`success = False`; never assigns `kwargs`, `function`, `pausefunction` or
`resumefuncion`. -/
def InterruptableTask.init (name : String) (function : PyValue) : InterruptableTask :=
  { machine := fysomInit FysomCfg.empty
    name := some name
    func := some function
    args := some ()
    kwargs := none
    interruptable := some false
    success := some false
    result := none
    function := none
    pausefunction := none
    resumefuncion := none }

/-- `InterruptableTask` derives from `QtCore.QObject` and `Fysom` only
(line 70); `logMsg` is defined on `core.base.Base`, which is not among its
bases, so evaluating `self.logMsg` raises `AttributeError`. -/
def InterruptableTask.lookupLogMsg : Except PyExc Unit :=
  .error (.attributeError "logMsg")

/-- `self.result.update(...)`: `TaskResult` defines no `update` method (only
`updata`), and `QtCore.QObject` provides none, so the call raises
`AttributeError`. -/
def TaskResult.callUpdate (_r : TaskResult) : Except PyExc TaskResult :=
  .error (.attributeError "update")

/-- The `_run` transition callback (generic_logic.py lines 106-116).
`self.result = TaskResult()` succeeds; inside the `try`, `callable(self.function)`
evaluates `self.function`, an attribute `__init__` never set (the work callable
is stored as `self.func`), so `AttributeError` is raised and caught by
`except Exception`; the handler's first statement evaluates `self.logMsg`,
which also does not exist, so a fresh `AttributeError` escapes the callback
and `self.result.update(None, False)` is never reached.  Returns the
post-state and the escaped exception, if any. -/
def InterruptableTask.runCallback (t : InterruptableTask) : InterruptableTask × Option PyExc :=
  let t₁ := { t with result := some TaskResult.init }
  let tryOut : InterruptableTask × Option PyExc :=
    match t₁.function with
    | none => (t₁, some (.attributeError "function"))
    | some f =>
      if pyCallable f then
        match t₁.kwargs with
        | none => (t₁, some (.attributeError "kwargs"))
        | some _ =>
          match f with
          | .callable .ok => (t₁, none)
          | .callable (.raises m) => (t₁, some (.raised m))
          | .notCallable => (t₁, none)
      else
        match TaskResult.init.callUpdate with
        | .error e => (t₁, some e)
        | .ok r => ({ t₁ with result := some r }, none)
  match tryOut with
  | (t₂, none) => (t₂, none)
  | (t₂, some _) =>
    match InterruptableTask.lookupLogMsg with
    | .error e₂ => (t₂, some e₂)
    | .ok _ =>
      match TaskResult.init.callUpdate with
      | .error e₃ => (t₂, some e₃)
      | .ok r => ({ t₂ with result := some r }, none)

/-- `InterruptableTask.makeInterruptable` (lines 100-104): the guard tests
`callable(self.pausefunction)` — the ATTRIBUTE, not the `pausefunction`
argument — and no code path assigns that attribute before the guard first
succeeds, so the first call raises `AttributeError` and the task is never
marked interruptable. -/
def InterruptableTask.makeInterruptable (t : InterruptableTask)
    (pausefunction resumefunction : PyValue) : InterruptableTask × Option PyExc :=
  match t.pausefunction with
  | none => (t, some (.attributeError "pausefunction"))
  | some selfPf =>
    if pyCallable selfPf && pyCallable resumefunction then
      ({ t with
          pausefunction := some pausefunction
          resumefuncion := some resumefunction
          interruptable := some true }, none)
    else (t, none)

/-- `InterruptableTask.canPause` (lines 146-147):
`self.interruptable and self.can('pause')` with Python short-circuiting. -/
def InterruptableTask.canPause (t : InterruptableTask) : Except PyExc Bool :=
  match t.interruptable with
  | none => .error (.attributeError "interruptable")
  | some b => if b then .ok (t.machine.can "pause") else .ok false

/-- A task object as the registry stores it: its `name` attribute plus an
identity tag distinguishing distinct task objects. -/
structure RegisteredTask where
  name : String
  id : Nat
deriving DecidableEq

/-- A `GenericLogic` instance: only `taskLock` is assigned on the instance by
`__init__` (line 44); lock identity is modelled by a tag. -/
structure GenericLogicInstance where
  name : String
  taskLockId : Nat
deriving DecidableEq

/-- Where Python resolves an attribute read: the instance dictionary first,
the class dictionary second, otherwise `AttributeError`. -/
inductive AttrSource where
  | instanceLevel
  | classLevel
  | missing
deriving DecidableEq

/-- Python attribute resolution order for a read access. -/
def pyResolveAttr (instAttrs clsAttrs : List String) (a : String) : AttrSource :=
  if a ∈ instAttrs then .instanceLevel
  else if a ∈ clsAttrs then .classLevel
  else .missing

/-- Class-level attributes of `GenericLogic` (generic_logic.py lines 30-32):
`_modclass`, `_modtype` and the registry `_tasks = DictTableModel()`,
evaluated once at class creation. -/
def GenericLogic.classAttrNames : List String := ["_modclass", "_modtype", "_tasks"]

/-- Attributes `GenericLogic.__init__` (line 44) assigns on the instance
beyond `Base`'s: only `taskLock`; in particular `_tasks` is never assigned on
an instance, so every instance reads the one class-level registry. -/
def GenericLogic.instanceAttrNames : List String := ["taskLock"]

/-- `GenericLogic.__init__` (lines 34-44): delegates to `Base.__init__` and
creates a fresh `Mutex` stored as the per-instance `taskLock`; lock identity is
modelled by a counter that each construction consumes. -/
def GenericLogic.init (name : String) (lockCounter : Nat) : GenericLogicInstance × Nat :=
  ({ name := name, taskLockId := lockCounter }, lockCounter + 1)

/-- `GenericLogic.registerTask` (lines 53-58): under `self.taskLock`, reads
`self._tasks` — which resolves to the class attribute, shared by every
instance — and calls `add(task.name, task)`; when `add` returns `None` it
logs an error and returns `-1`, otherwise it returns `0`.  Takes the shared
class-level registry explicitly and returns the updated registry, the return
code and the log output. -/
def GenericLogic.registerTask (tasks : DictTableModel RegisteredTask)
    (_inst : GenericLogicInstance) (task : RegisteredTask) :
    DictTableModel RegisteredTask × Int × List LogEntry :=
  let added := tasks.add task.name task
  match added.2 with
  | none =>
    (added.1, -1,
      [⟨"Could not register task " ++ task.name ++
          " because a task is already registered with this name.", .error⟩])
  | some _ => (added.1, 0, [])

/-! Concrete fixtures used to instantiate the general theorems. -/

/-- A server registry sharing one module, `"shared"`, as the object `5`. -/
def sampleServer : DictTableModel Nat := ⟨[("shared", 5)]⟩

/-- A manager with nothing shared yet. -/
def emptyMgr : RemoteObjectManager Nat :=
  { sharedModules := ⟨[]⟩, remoteModules := [], log := [] }

/-- A manager that already shares `"mod"` as the object `7`. -/
def mgrWithMod : RemoteObjectManager Nat :=
  { sharedModules := ⟨[("mod", 7)]⟩, remoteModules := [], log := [] }

/-- Two distinct logic-module instances. -/
def sampleInstA : GenericLogicInstance := ⟨"logicA", 0⟩

def sampleInstB : GenericLogicInstance := ⟨"logicB", 1⟩

/-- Two distinct task objects carrying the same name. -/
def sampleTask : RegisteredTask := ⟨"scan", 1⟩

def sampleTask2 : RegisteredTask := ⟨"scan", 2⟩

/-- An empty task registry. -/
def sampleTasksRegistry : DictTableModel RegisteredTask := ⟨[]⟩

/-! ## Lemmas about the dictionary model -/

theorem lookupKey_append_self {α : Type} (l : List (String × α)) (k : String) (v : α)
    (h : lookupKey l k = none) : lookupKey (l ++ [(k, v)]) k = some v := by
  induction l with
  | nil => simp [lookupKey]
  | cons p rest ih =>
    obtain ⟨k₀, v₀⟩ := p
    by_cases hk : k₀ = k
    · simp [lookupKey, hk] at h
    · simp only [lookupKey, List.cons_append, hk, if_false] at h ⊢
      exact ih h

theorem lookupKey_filter_ne {α : Type} (l : List (String × α)) (k : String) :
    lookupKey (l.filter (fun p => decide (p.1 ≠ k))) k = none := by
  induction l with
  | nil => simp [lookupKey]
  | cons p rest ih =>
    obtain ⟨k₀, v₀⟩ := p
    by_cases hk : k₀ = k
    · simpa [List.filter_cons, hk] using ih
    · simpa [List.filter_cons, hk, lookupKey] using ih

theorem filter_ne_of_lookupKey_none {α : Type} (l : List (String × α)) (k : String)
    (h : lookupKey l k = none) : l.filter (fun p => decide (p.1 ≠ k)) = l := by
  induction l with
  | nil => simp
  | cons p rest ih =>
    obtain ⟨k₀, v₀⟩ := p
    by_cases hk : k₀ = k
    · simp [lookupKey, hk] at h
    · simp only [lookupKey, hk, if_false] at h
      simp only [List.filter_cons]
      rw [if_pos (by simp [hk]), ih h]

/-! ## Lemmas about the server dispatch path and the manager -/

theorem exposed_getModule_of_lookup_some {α : Type} (modules : DictTableModel α)
    (name : String) (o : α) (h : modules.lookup name = some o) :
    RemoteModuleService.exposed_getModule modules name = (.ok (some o), []) := by
  simp [RemoteModuleService.exposed_getModule, DictTableModel.contains, h]

theorem exposed_getModule_of_lookup_none {α : Type} (modules : DictTableModel α)
    (name : String) (h : modules.lookup name = none) :
    RemoteModuleService.exposed_getModule modules name = (.ok none, [notSharedError]) := by
  simp [RemoteModuleService.exposed_getModule, DictTableModel.contains, h]

theorem shareModule_lookup_fresh {α : Type} (mgr : RemoteObjectManager α)
    (n : String) (o : α) (h : mgr.sharedModules.lookup n = none) :
    (mgr.shareModule n o).sharedModules.lookup n = some o := by
  have hc : mgr.sharedModules.contains n = false := by
    simp [DictTableModel.contains, h]
  simp only [RemoteObjectManager.shareModule, DictTableModel.add, hc,
    Bool.false_eq_true, if_false, DictTableModel.lookup]
  exact lookupKey_append_self _ _ _ h

theorem shareModule_dup {α : Type} (mgr : RemoteObjectManager α)
    (n : String) (o o' : α) (h : mgr.sharedModules.lookup n = some o') :
    (mgr.shareModule n o).sharedModules = mgr.sharedModules ∧
    (⟨"Module " ++ n ++ " already shared.", .warning⟩ : LogEntry) ∈
      (mgr.shareModule n o).log := by
  have hc : mgr.sharedModules.contains n = true := by
    simp [DictTableModel.contains, h]
  constructor
  · simp [RemoteObjectManager.shareModule, DictTableModel.add, hc]
  · simp [RemoteObjectManager.shareModule, hc]

theorem unshareModule_lookup {α : Type} (mgr : RemoteObjectManager α) (n : String) :
    (mgr.unshareModule n).sharedModules.lookup n = none := by
  simp only [RemoteObjectManager.unshareModule, DictTableModel.pop, DictTableModel.lookup]
  exact lookupKey_filter_ne _ _

theorem registerTask_fresh (tasks : DictTableModel RegisteredTask)
    (inst : GenericLogicInstance) (t : RegisteredTask)
    (h : tasks.lookup t.name = none) :
    GenericLogic.registerTask tasks inst t =
      (⟨tasks.storage ++ [(t.name, t)]⟩, 0, []) := by
  have hc : tasks.contains t.name = false := by simp [DictTableModel.contains, h]
  simp [GenericLogic.registerTask, DictTableModel.add, hc]

theorem registerTask_dup (tasks : DictTableModel RegisteredTask)
    (inst : GenericLogicInstance) (t t₀ : RegisteredTask)
    (h : tasks.lookup t.name = some t₀) :
    GenericLogic.registerTask tasks inst t =
      (tasks, -1,
        [⟨"Could not register task " ++ t.name ++
            " because a task is already registered with this name.", .error⟩]) := by
  have hc : tasks.contains t.name = true := by simp [DictTableModel.contains, h]
  simp [GenericLogic.registerTask, DictTableModel.add, hc]

theorem pyReplaceSlash_leading {name : String}
    (hname : ∀ c ∈ name.toList, c ≠ '/') :
    pyReplaceSlash (String.mk ('/' :: name.toList)) = name := by
  unfold pyReplaceSlash
  have h1 : (String.mk ('/' :: name.toList)).toList = '/' :: name.toList := rfl
  rw [h1]
  simp only [List.filter_cons]
  rw [if_neg (by simp)]
  have h2 : List.filter (fun c => decide (c ≠ '/')) name.toList = name.toList := by
    rw [List.filter_eq_self]
    intro a ha
    simpa using hname a ha
  rw [h2]
  rfl

theorem specLeadingSlashStripped_leading (name : String) :
    specLeadingSlashStripped (String.mk ('/' :: name.toList)) = name := by
  unfold specLeadingSlashStripped
  rfl

/-! ## The claims -/

/-- Claim C1: the claim describes the transition table `_stateList` carries, but
`InterruptableTask.__init__` calls `Fysom.__init__(self)` WITHOUT passing
`_stateList`, so a fresh task's machine is built from the empty default
configuration: its state is `"none"`, not `"stopped"`, and firing `run` (or
`pause`) raises `AttributeError` instead of transitioning; the
built-but-unused `_stateList` does carry exactly the claimed table. -/
theorem interruptableTask_stateMachine_code_bug :
    (InterruptableTask.init "scan" (.callable .ok)).machine.cfg = FysomCfg.empty ∧
    (InterruptableTask.init "scan" (.callable .ok)).machine.current = "none" ∧
    (InterruptableTask.init "scan" (.callable .ok)).machine.current ≠ "stopped" ∧
    (InterruptableTask.init "scan" (.callable .ok)).machine.fire "run" =
      ((InterruptableTask.init "scan" (.callable .ok)).machine,
        some (.attributeError "run")) ∧
    (InterruptableTask.init "scan" (.callable .ok)).machine.fire "pause" =
      ((InterruptableTask.init "scan" (.callable .ok)).machine,
        some (.attributeError "pause")) ∧
    interruptableStateList.initial = some "stopped" ∧
    (fysomInit interruptableStateList).current = "stopped" ∧
    ((fysomInit interruptableStateList).fire "run").1.current = "running" := by
  decide

/-- Claim C2: the claim says a raising work callable is caught, logged with the
task name, recorded as `success = False` and does not propagate.  On the code,
the `run` transition does not even exist (`AttributeError`), and the `_run`
callback itself re-raises `AttributeError("logMsg")` from inside its `except`
block (the class has no `logMsg`), leaving `result.success` as `None`, never
`False`. -/
theorem taskExecutionFailure_code_bug :
    (InterruptableTask.init "scan" (.callable (.raises "boom"))).machine.fire "run" =
      ((InterruptableTask.init "scan" (.callable (.raises "boom"))).machine,
        some (.attributeError "run")) ∧
    ((InterruptableTask.init "scan" (.callable (.raises "boom"))).runCallback).2 =
      some (.attributeError "logMsg") ∧
    ((InterruptableTask.init "scan" (.callable (.raises "boom"))).runCallback).1.result =
      some TaskResult.init ∧
    TaskResult.init.success = none ∧
    TaskResult.init.success ≠ some false := by
  decide

/-- Claim C3, counterexample: sharing `"m"` as `1` and then re-sharing `"m"`
as `2` leaves the server dispatch path returning `1`, not the latest object
`2`, because `DictTableModel.add` rejects duplicate keys. -/
theorem share_latestWins_counterexample :
    RemoteModuleService.exposed_getModule
      ((emptyMgr.shareModule "m" 1).shareModule "m" 2).sharedModules "m" =
      (.ok (some 1), []) ∧
    (1 : Nat) ≠ 2 := by
  decide

/-- Claim C3 (amended): `shareModule(n, o)` followed by the server dispatch
lookup returns `o` when `n` was not already shared; when `n` was already
shared as `o'`, the warning is logged and the registry retains the FIRST
object `o'` (the latest does not win); after `unshareModule(n)` the dispatch
path yields the NotFound outcome (`None` plus the error log). -/
theorem share_lookup_unshare_spec {α : Type} (mgr : RemoteObjectManager α)
    (n : String) (o : α) :
    (mgr.sharedModules.lookup n = none →
      RemoteModuleService.exposed_getModule (mgr.shareModule n o).sharedModules n =
        (.ok (some o), [])) ∧
    (∀ o', mgr.sharedModules.lookup n = some o' →
      RemoteModuleService.exposed_getModule (mgr.shareModule n o).sharedModules n =
        (.ok (some o'), []) ∧
      (⟨"Module " ++ n ++ " already shared.", .warning⟩ : LogEntry) ∈
        (mgr.shareModule n o).log) ∧
    RemoteModuleService.exposed_getModule (mgr.unshareModule n).sharedModules n =
      (.ok none, [notSharedError]) := by
  refine ⟨fun h => ?_, fun o' h => ⟨?_, ?_⟩, ?_⟩
  · exact exposed_getModule_of_lookup_some _ n o (shareModule_lookup_fresh mgr n o h)
  · rw [(shareModule_dup mgr n o o' h).1]
    exact exposed_getModule_of_lookup_some _ n o' h
  · exact (shareModule_dup mgr n o o' h).2
  · exact exposed_getModule_of_lookup_none _ n (unshareModule_lookup mgr n)

/-- Witness for C3's amended theorem at concrete inputs. -/
theorem share_lookup_unshare_spec_witness :
    RemoteModuleService.exposed_getModule
      (emptyMgr.shareModule "m" 1).sharedModules "m" = (.ok (some 1), []) ∧
    RemoteModuleService.exposed_getModule
      (mgrWithMod.shareModule "mod" 9).sharedModules "mod" = (.ok (some 7), []) ∧
    RemoteModuleService.exposed_getModule
      (mgrWithMod.unshareModule "mod").sharedModules "mod" =
      (.ok none, [notSharedError]) :=
  ⟨(share_lookup_unshare_spec emptyMgr "m" 1).1 (by decide),
   ((share_lookup_unshare_spec mgrWithMod "mod" 9).2.1 7 (by decide)).1,
   (share_lookup_unshare_spec mgrWithMod "mod" 1).2.2⟩

/-- Claim C4: `exposed_getModule` returns `None` and logs the error when the
name is absent from the shared module registry, returns the shared object when
present, and in both cases delivers an `ok` result — no protocol-level fault
is raised. -/
theorem exposed_getModule_spec {α : Type} (modules : DictTableModel α)
    (name : String) :
    (modules.lookup name = none →
      RemoteModuleService.exposed_getModule modules name =
        (.ok none, [notSharedError])) ∧
    (∀ o, modules.lookup name = some o →
      RemoteModuleService.exposed_getModule modules name = (.ok (some o), [])) :=
  ⟨fun h => exposed_getModule_of_lookup_none modules name h,
   fun o h => exposed_getModule_of_lookup_some modules name o h⟩

/-- Witness for C4 at concrete inputs. -/
theorem exposed_getModule_spec_witness :
    RemoteModuleService.exposed_getModule sampleServer "ghost" =
      (.ok none, [notSharedError]) ∧
    RemoteModuleService.exposed_getModule sampleServer "shared" =
      (.ok (some 5), []) :=
  ⟨(exposed_getModule_spec sampleServer "ghost").1 (by decide),
   (exposed_getModule_spec sampleServer "shared").2 5 (by decide)⟩

/-- Claim C5: registering a task under a name already present logs the error,
returns `-1` and leaves the registry unchanged (the first task is retained);
registering under a fresh name inserts the task and returns `0`. -/
theorem registerTask_spec (tasks : DictTableModel RegisteredTask)
    (inst : GenericLogicInstance) (t : RegisteredTask) :
    (tasks.lookup t.name = none →
      GenericLogic.registerTask tasks inst t =
        (⟨tasks.storage ++ [(t.name, t)]⟩, 0, []) ∧
      (GenericLogic.registerTask tasks inst t).1.lookup t.name = some t) ∧
    (∀ t₀, tasks.lookup t.name = some t₀ →
      GenericLogic.registerTask tasks inst t =
        (tasks, -1,
          [⟨"Could not register task " ++ t.name ++
              " because a task is already registered with this name.", .error⟩]) ∧
      (GenericLogic.registerTask tasks inst t).1.lookup t.name = some t₀) := by
  constructor
  · intro h
    refine ⟨registerTask_fresh tasks inst t h, ?_⟩
    rw [registerTask_fresh tasks inst t h]
    exact lookupKey_append_self _ _ _ h
  · intro t₀ h
    refine ⟨registerTask_dup tasks inst t t₀ h, ?_⟩
    rw [registerTask_dup tasks inst t t₀ h]
    exact h

/-- Witness for C5 at concrete inputs: a fresh registration succeeds, the
duplicate registration fails and the registry retains the first task. -/
theorem registerTask_spec_witness :
    (GenericLogic.registerTask sampleTasksRegistry sampleInstA sampleTask =
      (⟨sampleTasksRegistry.storage ++ [(sampleTask.name, sampleTask)]⟩, 0, []) ∧
     (GenericLogic.registerTask sampleTasksRegistry sampleInstA sampleTask).1.lookup
        sampleTask.name = some sampleTask) ∧
    (GenericLogic.registerTask ⟨[("scan", sampleTask)]⟩ sampleInstB sampleTask2 =
      (⟨[("scan", sampleTask)]⟩, -1,
        [⟨"Could not register task " ++ sampleTask2.name ++
            " because a task is already registered with this name.", .error⟩]) ∧
     (GenericLogic.registerTask ⟨[("scan", sampleTask)]⟩ sampleInstB sampleTask2).1.lookup
        sampleTask2.name = some sampleTask) :=
  ⟨(registerTask_spec sampleTasksRegistry sampleInstA sampleTask).1 (by decide),
   (registerTask_spec ⟨[("scan", sampleTask)]⟩ sampleInstB sampleTask2).2
     sampleTask (by decide)⟩

/-- Claim C6: the claim says the "was not shared" diagnostic fires for an
ABSENT name.  On the code the guard is `if name in self.sharedModules.storage`,
so the diagnostic fires exactly when the name IS present (and the entry is
then removed), while unsharing an absent name emits no diagnostic at all and
leaves the registry unchanged. -/
theorem unshareModule_code_bug :
    (mgrWithMod.unshareModule "mod").log =
      [⟨"Module mod was not shared.", .error⟩] ∧
    (mgrWithMod.unshareModule "mod").sharedModules.lookup "mod" = none ∧
    (mgrWithMod.unshareModule "ghost").log = [] ∧
    (mgrWithMod.unshareModule "ghost").sharedModules = mgrWithMod.sharedModules := by
  decide

/-- Claim C7: the claim says `makeInterruptable` marks the task interruptable
exactly when both arguments are callables.  On the code the guard tests
`callable(self.pausefunction)` — an attribute `__init__` never assigns — so
even with two valid callables the call raises `AttributeError` and the task
stays non-interruptable; `canPause()` does report `false` and firing `pause`
fails (the event was never configured). -/
theorem makeInterruptable_code_bug :
    (InterruptableTask.init "scan" (.callable .ok)).makeInterruptable
        (.callable .ok) (.callable .ok) =
      (InterruptableTask.init "scan" (.callable .ok),
        some (.attributeError "pausefunction")) ∧
    ((InterruptableTask.init "scan" (.callable .ok)).makeInterruptable
        (.callable .ok) (.callable .ok)).1.interruptable = some false ∧
    (InterruptableTask.init "scan" (.callable .ok)).canPause = .ok false ∧
    (InterruptableTask.init "scan" (.callable .ok)).machine.fire "pause" =
      ((InterruptableTask.init "scan" (.callable .ok)).machine,
        some (.attributeError "pause")) := by
  decide

/-- Claim C8: requesting, from a reachable server, a name the server never
shared yields an `ok` outcome on the client (no exception) carrying an empty
proxy, and the recorded `RemoteModule` holds `module = None`. -/
theorem getRemoteModule_not_shared {α : Type} (mgr : RemoteObjectManager α)
    (server : DictTableModel α) (host : String) (port : Option Nat)
    (name : String) (h : server.lookup name = none) :
    mgr.getRemoteModule server host port name =
      .ok (none,
        { mgr with remoteModules := mgr.remoteModules ++ [⟨name, none⟩] }) := by
  simp [RemoteObjectManager.getRemoteModule, RemoteModule.init,
    exposed_getModule_of_lookup_none server name h]

/-- Witness for C8 at concrete inputs. -/
theorem getRemoteModule_not_shared_witness :
    emptyMgr.getRemoteModule sampleServer "host" (some 4000) "ghost" =
      .ok (none,
        { emptyMgr with
            remoteModules := emptyMgr.remoteModules ++ [⟨"ghost", none⟩] }) :=
  getRemoteModule_not_shared emptyMgr sampleServer "host" (some 4000) "ghost"
    (by decide)

/-- Claim C9, counterexample: for the URL `rpyc://host:4000/a/b` the code
resolves the name by `path.replace('/', '')`, yielding `"ab"`, while the
path component with only its leading slash stripped is `"a/b"`. -/
theorem getRemoteModuleUrl_counterexample :
    urlTriple "rpyc://host:4000/a/b" = ("host", some 4000, "ab") ∧
    (pyUrlparse "rpyc://host:4000/a/b").path = "/a/b" ∧
    specLeadingSlashStripped "/a/b" = "a/b" ∧
    ("ab" : String) ≠ "a/b" := by
  decide

/-- Claim C9 (amended): `getRemoteModuleUrl` resolves a URL to
`(hostname, port, path with ALL slashes removed)` and delegates to
`getRemoteModule` with that triple; when the path is a leading slash followed
by a slash-free name this agrees with the spec's "leading slash stripped"
reading. -/
theorem getRemoteModuleUrl_resolves {α : Type} (mgr : RemoteObjectManager α)
    (server : DictTableModel α) (url host name : String) (port : Option Nat)
    (hparse : pyUrlparse url = ⟨host, port, String.mk ('/' :: name.toList)⟩)
    (hname : ∀ c ∈ name.toList, c ≠ '/') :
    urlTriple url = (host, port, name) ∧
    specLeadingSlashStripped (pyUrlparse url).path = name ∧
    mgr.getRemoteModuleUrl server url = mgr.getRemoteModule server host port name := by
  have htriple : urlTriple url = (host, port, name) := by
    unfold urlTriple
    rw [hparse]
    simp only
    rw [pyReplaceSlash_leading hname]
  refine ⟨htriple, ?_, ?_⟩
  · rw [hparse]
    exact specLeadingSlashStripped_leading name
  · unfold RemoteObjectManager.getRemoteModuleUrl
    rw [htriple]

/-- Witness for C9's amended theorem at a concrete URL. -/
theorem getRemoteModuleUrl_resolves_witness :
    urlTriple "rpyc://host:4000/counter" = ("host", some 4000, "counter") ∧
    specLeadingSlashStripped (pyUrlparse "rpyc://host:4000/counter").path =
      "counter" ∧
    emptyMgr.getRemoteModuleUrl sampleServer "rpyc://host:4000/counter" =
      emptyMgr.getRemoteModule sampleServer "host" (some 4000) "counter" :=
  getRemoteModuleUrl_resolves emptyMgr sampleServer "rpyc://host:4000/counter"
    "host" "counter" (some 4000) (by decide) (by decide)

/-- Claim C10: `_tasks` resolves at class level (it is never assigned on an
instance, unlike `taskLock`), so registration through any instance updates the
one shared registry and is visible regardless of which instance is used, while
each `__init__` creates a distinct per-instance lock. -/
theorem tasksRegistry_class_level_shared (tasks : DictTableModel RegisteredTask)
    (instA instB : GenericLogicInstance) (t : RegisteredTask) :
    pyResolveAttr GenericLogic.instanceAttrNames GenericLogic.classAttrNames
      "_tasks" = .classLevel ∧
    pyResolveAttr GenericLogic.instanceAttrNames GenericLogic.classAttrNames
      "taskLock" = .instanceLevel ∧
    GenericLogic.registerTask tasks instA t = GenericLogic.registerTask tasks instB t ∧
    (tasks.lookup t.name = none →
      (GenericLogic.registerTask tasks instA t).1.lookup t.name = some t) ∧
    (∀ nameA nameB c,
      ((GenericLogic.init nameA c).1).taskLockId ≠
        ((GenericLogic.init nameB (GenericLogic.init nameA c).2).1).taskLockId) := by
  refine ⟨by decide, by decide, rfl, fun h => ?_, fun nameA nameB c => ?_⟩
  · rw [registerTask_fresh tasks instA t h]
    exact lookupKey_append_self _ _ _ h
  · simp [GenericLogic.init]

/-- Witness for C10 at concrete inputs. -/
theorem tasksRegistry_class_level_shared_witness :
    GenericLogic.registerTask sampleTasksRegistry sampleInstA sampleTask =
      GenericLogic.registerTask sampleTasksRegistry sampleInstB sampleTask ∧
    (GenericLogic.registerTask sampleTasksRegistry sampleInstA sampleTask).1.lookup
      sampleTask.name = some sampleTask :=
  ⟨(tasksRegistry_class_level_shared sampleTasksRegistry sampleInstA sampleInstB
      sampleTask).2.2.1,
   (tasksRegistry_class_level_shared sampleTasksRegistry sampleInstA sampleInstB
      sampleTask).2.2.2.1 (by decide)⟩

end Qudi
